import Mathlib

/-!
Verification development for the runner-game simulation core
(`src/runner-game/src/components/RunnerGame.tsx`).

The per-frame simulation step, the input commands (`startGame`, `jump`)
and the obstacle spawner/sweep are embedded shallowly: numbers are `ℚ`
(the source uses JS doubles on small exact values), the two `Math.random()`
draws of a frame are passed in as parameters `r1 r2 ∈ [0,1)`, and the
canvas is modelled as present with dimensions `w × h`.  Presentation-only
fields (colors, images, audio) are omitted; everything the frame step
reads or writes is kept.
-/

namespace Runner

/-- Game constant `GRAVITY = 0.6`. -/
def GRAVITY : ℚ := 3/5

/-- Game constant `JUMP_FORCE = -12`. -/
def JUMP_FORCE : ℚ := -12

/-- Game constant `GROUND_HEIGHT = 50`. -/
def GROUND_HEIGHT : ℚ := 50

/-- Game constant `OBSTACLE_SPEED = 6`. -/
def OBSTACLE_SPEED : ℚ := 6

/-- Game constant `SPAWN_RATE_MIN = 1200`. -/
def SPAWN_RATE_MIN : ℚ := 1200

/-- Game constant `SPAWN_RATE_MAX = 2000`. -/
def SPAWN_RATE_MAX : ℚ := 2000

/-- Game constant `CATCH_SPEED = 0.5`. -/
def CATCH_SPEED : ℚ := 1/2

/-- Game constant `STUMBLE_PENALTY = 100`. -/
def STUMBLE_PENALTY : ℚ := 100

/-- Collision margin, the local `hitMargin = 5` of the sweep loop. -/
def hitMargin : ℚ := 5

/-- Interface `Entity` (color omitted as presentation-only). -/
structure Entity where
  x : ℚ
  y : ℚ
  width : ℚ
  height : ℚ
deriving DecidableEq, Repr

/-- Interface `Jumper extends Entity`. -/
structure Jumper where
  x : ℚ
  y : ℚ
  width : ℚ
  height : ℚ
  dy : ℚ
  grounded : Bool
  jumpCount : Nat
deriving DecidableEq, Repr

/-- The `gameState` enum. -/
inductive GameState where
  | START
  | PLAYING
  | WON
  | LOST
deriving DecidableEq, Repr

/-- The mutable refs/state the frame step reads and writes: `gameState`,
`officers`, `thief`, `obstacles`, `spawnTimerRef`, `nextSpawnTimeRef`,
and the published `distance`. -/
structure SimState where
  status : GameState
  officers : Jumper
  thief : Jumper
  obstacles : List Entity
  spawnTimer : ℚ
  nextSpawnTime : ℚ
  distance : ℤ
deriving DecidableEq, Repr

/-- One obstacle advance of the sweep loop: `obs.x -= OBSTACLE_SPEED`. -/
def moveObs (o : Entity) : Entity :=
  { o with x := o.x - OBSTACLE_SPEED }

/-- The sweep loop's collision test between the officers' rectangle and an
obstacle rectangle, both shrunk inward by `hitMargin` (lines 352-357):
the source's `&&`-chain of four strict comparisons. -/
def collide (off : Jumper) (o : Entity) : Prop :=
  off.x + hitMargin < o.x + o.width - hitMargin ∧
  off.x + off.width - hitMargin > o.x + hitMargin ∧
  off.y + hitMargin < o.y + o.height - hitMargin ∧
  off.y + off.height - hitMargin > o.y + hitMargin

instance (off : Jumper) (o : Entity) : Decidable (collide off o) := by
  unfold collide
  infer_instance

/-- Raw (unshrunk) horizontal overlap of the two rectangles, used to state
the collision-margin claim. -/
def overlapX (off : Jumper) (o : Entity) : ℚ :=
  min (off.x + off.width) (o.x + o.width) - max off.x o.x

/-- Raw (unshrunk) vertical overlap of the two rectangles. -/
def overlapY (off : Jumper) (o : Entity) : ℚ :=
  min (off.y + off.height) (o.y + o.height) - max off.y o.y

/-- Vertical physics of one frame for one jumper (lines 249-260 for the
officers, 295-304 for the thief): add gravity to `dy`, add `dy` to `y`,
then clamp to the ground.  `resetCount` is true for the officers, whose
ground contact also resets `jumpCount` to 0; the thief's branch leaves
`jumpCount` untouched. -/
def physStep (groundY : ℚ) (resetCount : Bool) (j : Jumper) : Jumper :=
  if j.y + (j.dy + GRAVITY) + j.height > groundY then
    { j with y := groundY - j.height, dy := 0, grounded := true,
             jumpCount := if resetCount then 0 else j.jumpCount }
  else
    { j with y := j.y + (j.dy + GRAVITY), dy := j.dy + GRAVITY, grounded := false }

/-- Officers' physics followed by the catch-up advance
`officers.current.x += CATCH_SPEED` (lines 249-263). -/
def officersAfterAdvance (groundY : ℚ) (j : Jumper) : Jumper :=
  { physStep groundY true j with x := (physStep groundY true j).x + CATCH_SPEED }

/-- The AI's look-ahead scan (lines 308-311): the truthiness of
`obstacles.find(obs => obs.x > thief.x && obs.x < thief.x + 150)`, i.e.
some obstacle lies strictly ahead of the thief within 150 units. -/
def upcomingObs (th : Jumper) (obs : List Entity) : Prop :=
  ∃ o ∈ obs, o.x > th.x ∧ o.x < th.x + 150

instance (th : Jumper) (obs : List Entity) : Decidable (upcomingObs th obs) := by
  unfold upcomingObs
  infer_instance

/-- The AI jump (lines 313-316): if the look-ahead finds an obstacle and
the thief is grounded, set `dy := JUMP_FORCE` and clear `grounded`.
Note: unlike the player `jump`, `jumpCount` is not incremented. -/
def aiStep (th : Jumper) (obs : List Entity) : Jumper :=
  if upcomingObs th obs ∧ th.grounded = true then
    { th with dy := JUMP_FORCE, grounded := false }
  else th

/-- Result of the spawner fragment: the new `spawnTimerRef`,
`nextSpawnTimeRef` and obstacle list. -/
structure SpawnOut where
  timer : ℚ
  next : ℚ
  obstacles : List Entity
deriving DecidableEq, Repr

/-- The obstacle built at a spawn event (lines 333-340): height
`Math.floor(r2 * 41) + 40`, left edge at the canvas width, width 30,
bottom on the ground line. -/
def newObstacle (w groundY r2 : ℚ) : Entity :=
  { x := w, y := groundY - ((⌊r2 * 41⌋ + 40 : ℤ) : ℚ), width := 30,
    height := ((⌊r2 * 41⌋ + 40 : ℤ) : ℚ) }

/-- The spawner (lines 327-341): clamp the frame delta at 50, add it to
the accumulator, and on `accumulator > nextSpawnTime` reset the
accumulator to 0, draw the next interval `r1 * 800 + 1200`, and append a
new obstacle. -/
def spawnStep (w groundY r1 r2 delta spawnTimer nextSpawnTime : ℚ)
    (obs : List Entity) : SpawnOut :=
  if spawnTimer + min delta 50 > nextSpawnTime then
    ⟨0, r1 * (SPAWN_RATE_MAX - SPAWN_RATE_MIN) + SPAWN_RATE_MIN,
     obs ++ [newObstacle w groundY r2]⟩
  else ⟨spawnTimer + min delta 50, nextSpawnTime, obs⟩

/-- Result of the sweep loop: updated officers, the surviving obstacle
list (`kept`), the obstacles removed by collision (`hits`) and those
pruned off-screen (`pruned`). -/
structure SweepOut where
  officers : Jumper
  kept : List Entity
  hits : List Entity
  pruned : List Entity
deriving DecidableEq, Repr

/-- The sweep loop (lines 343-368).  The source iterates the array in
reverse index order, splicing in place; since removing index `i` leaves
indices below `i` untouched, this is the recursion that processes the
last element first and threads the officers' position (only `x` is
mutated mid-sweep) through to the earlier elements. -/
def sweepAux (off : Jumper) : List Entity → SweepOut
  | [] => ⟨off, [], [], []⟩
  | o :: rest =>
    let r := sweepAux off rest
    let o1 := moveObs o
    if collide r.officers o1 then
      ⟨{ r.officers with x := r.officers.x - STUMBLE_PENALTY },
       r.kept, o1 :: r.hits, r.pruned⟩
    else if o1.x + o1.width < 0 then
      ⟨r.officers, r.kept, r.hits, o1 :: r.pruned⟩
    else
      ⟨r.officers, o1 :: r.kept, r.hits, r.pruned⟩

/-- The sweep as the game uses it: updated officers and surviving list. -/
def sweep (off : Jumper) (obs : List Entity) : Jumper × List Entity :=
  ((sweepAux off obs).officers, (sweepAux off obs).kept)

/-- The part of the frame after the win/loss checks passed (lines
294-371): thief physics and AI (the AI reads the obstacle list before
the spawner and the sweep run), then spawn, then sweep, then the
distance publish `Math.floor(thief.x - officers.x)`. -/
def postCheckStep (w h delta r1 r2 : ℚ) (s : SimState) : SimState :=
  let groundY := h - GROUND_HEIGHT
  let th2 := aiStep (physStep groundY false s.thief) s.obstacles
  let sp := spawnStep w groundY r1 r2 delta s.spawnTimer s.nextSpawnTime s.obstacles
  let sw := sweepAux (officersAfterAdvance groundY s.officers) sp.obstacles
  { status := GameState.PLAYING, officers := sw.officers, thief := th2,
    obstacles := sw.kept, spawnTimer := sp.timer, nextSpawnTime := sp.next,
    distance := ⌊th2.x - sw.officers.x⌋ }

/-- The `PLAYING` body of the frame: officers' physics and catch-up
advance, then the win check (line 266), then the loss check (line 273);
each terminal branch returns with only `gameState` and the already
mutated officers changed. -/
def updatePlaying (w h delta r1 r2 : ℚ) (s : SimState) : SimState :=
  if (officersAfterAdvance (h - GROUND_HEIGHT) s.officers).x +
      (officersAfterAdvance (h - GROUND_HEIGHT) s.officers).width ≥ s.thief.x then
    { s with status := GameState.WON,
             officers := officersAfterAdvance (h - GROUND_HEIGHT) s.officers }
  else if (officersAfterAdvance (h - GROUND_HEIGHT) s.officers).x +
      (officersAfterAdvance (h - GROUND_HEIGHT) s.officers).width < 0 then
    { s with status := GameState.LOST,
             officers := officersAfterAdvance (h - GROUND_HEIGHT) s.officers }
  else postCheckStep w h delta r1 r2 s

/-- The frame step `update` (lines 220-374): a no-op unless `PLAYING`. -/
def update (w h delta r1 r2 : ℚ) (s : SimState) : SimState :=
  if s.status = GameState.PLAYING then updatePlaying w h delta r1 r2 s else s

/-- `startGame` (lines 131-168), with the canvas present (`w × h`).  It
sets the state to `PLAYING`, clears the obstacles, and resets both
jumpers' positions, velocities and grounded flags; the officers'
`jumpCount` is zeroed, the thief's is not touched, and neither
`spawnTimerRef` nor `nextSpawnTimeRef` is written. -/
def startGame (w h : ℚ) (s : SimState) : SimState :=
  { status := GameState.PLAYING
    officers := { s.officers with
                    x := 50
                    y := (h - GROUND_HEIGHT) - s.officers.height
                    dy := 0
                    grounded := true
                    jumpCount := 0 }
    thief := { s.thief with
                 x := w * (4/5)
                 y := (h - GROUND_HEIGHT) - s.thief.height
                 dy := 0
                 grounded := true }
    obstacles := []
    spawnTimer := s.spawnTimer
    nextSpawnTime := s.nextSpawnTime
    distance := s.distance }

/-- The player `jump` command (lines 170-179): a no-op unless `PLAYING`;
otherwise, if the officers are grounded or have used fewer than 2 jumps,
set `dy := JUMP_FORCE`, clear `grounded` and increment `jumpCount`. -/
def jump (s : SimState) : SimState :=
  if s.status = GameState.PLAYING then
    if s.officers.grounded = true ∨ s.officers.jumpCount < 2 then
      { s with officers := { s.officers with
                               dy := JUMP_FORCE
                               grounded := false
                               jumpCount := s.officers.jumpCount + 1 } }
    else s
  else s

/-- Concrete officers jumper resting on the ground line of a 800×400
canvas (groundY = 350). -/
def offGrounded : Jumper := ⟨50, 290, 60, 60, 0, true, 0⟩

/-- Concrete thief jumper resting on the ground line at x = 0.8 · 800. -/
def thiefGrounded : Jumper := ⟨640, 290, 40, 60, 0, true, 0⟩

/-- Concrete playing state on a 800×400 canvas. -/
def sPlaying : SimState := ⟨GameState.PLAYING, offGrounded, thiefGrounded, [], 0, 1500, 0⟩

/-- Concrete terminal (`WON`) state with a nonzero spawn timer, a pending
obstacle and a stale distance, as left behind by a finished match. -/
def sWon : SimState :=
  ⟨GameState.WON, ⟨200, 100, 60, 60, -3, false, 1⟩, thiefGrounded,
   [⟨100, 300, 30, 50⟩], 333, 1700, 42⟩

/-- Concrete idle (`START`) state. -/
def sStart : SimState := ⟨GameState.START, offGrounded, thiefGrounded, [], 0, 1500, 0⟩

/-- Concrete state one catch-up advance away from the win condition:
officers at x = 940 (width 60), thief at x = 1000. -/
def sWin : SimState :=
  ⟨GameState.PLAYING, ⟨940, 290, 60, 60, 0, true, 0⟩, ⟨1000, 290, 40, 60, 0, true, 0⟩,
   [], 0, 1500, 0⟩

/-- One spawner step of the counterexample run for the spawn-interval
claim: canvas 800×400 (groundY = 350), both random draws fixed
(`r1 = 39/40`, so a drawn target interval of 1980; `r2 = 0`), and a raw
frame delta of 50 time-units. -/
def c3step (p : ℚ × ℚ × List Entity) : ℚ × ℚ × List Entity :=
  ((spawnStep 800 350 (39/40) 0 50 p.1 p.2.1 p.2.2).timer,
   (spawnStep 800 350 (39/40) 0 50 p.1 p.2.1 p.2.2).next,
   (spawnStep 800 350 (39/40) 0 50 p.1 p.2.1 p.2.2).obstacles)

/-- Helper: a jumper resting exactly on the ground line with zero
vertical velocity is clamped right back by one physics step; only the
jump counter is (for the officers) reset. -/
theorem physStep_ground_fix (g : ℚ) (rc : Bool) (j : Jumper)
    (hy : j.y + j.height = g) (hdy : j.dy = 0) (hg : j.grounded = true) :
    physStep g rc j = { j with jumpCount := if rc = true then 0 else j.jumpCount } := by
  unfold physStep
  rw [if_pos (by rw [hdy]; unfold GRAVITY; linarith)]
  cases j with
  | mk x y w ht dy gr jc =>
    simp only [Jumper.mk.injEq] at hy hdy hg ⊢
    exact ⟨trivial, by linarith, trivial, trivial, hdy.symm, hg.symm, trivial⟩

/-- Helper: `sweepAux` on the empty collection. -/
theorem sweepAux_nil (off : Jumper) : sweepAux off [] = ⟨off, [], [], []⟩ := rfl

/-- Helper: the unfolding of `sweepAux` on a cons cell (the head is the
oldest obstacle, processed last by the reverse-index loop). -/
theorem sweepAux_cons (off : Jumper) (o : Entity) (rest : List Entity) :
    sweepAux off (o :: rest) =
      if collide (sweepAux off rest).officers (moveObs o) then
        ⟨{ (sweepAux off rest).officers with
             x := (sweepAux off rest).officers.x - STUMBLE_PENALTY },
         (sweepAux off rest).kept, moveObs o :: (sweepAux off rest).hits,
         (sweepAux off rest).pruned⟩
      else if (moveObs o).x + (moveObs o).width < 0 then
        ⟨(sweepAux off rest).officers, (sweepAux off rest).kept,
         (sweepAux off rest).hits, moveObs o :: (sweepAux off rest).pruned⟩
      else
        ⟨(sweepAux off rest).officers, moveObs o :: (sweepAux off rest).kept,
         (sweepAux off rest).hits, (sweepAux off rest).pruned⟩ := rfl

/-- Helper: the sweep changes the officers only by subtracting one
stumble penalty per recorded hit. -/
theorem sweepAux_officers (off : Jumper) (obs : List Entity) :
    (sweepAux off obs).officers =
      { off with x := off.x - STUMBLE_PENALTY * ((sweepAux off obs).hits.length : ℚ) } := by
  induction obs with
  | nil => simp [sweepAux]
  | cons o rest ih =>
    rw [sweepAux_cons]
    split
    · dsimp only
      rw [ih]
      simp only [Jumper.mk.injEq, List.length_cons, and_true, true_and]
      push_cast
      ring
    · split
      · dsimp only
        exact ih
      · dsimp only
        exact ih

/-- Helper: together, the survivors, the hit obstacles and the pruned
obstacles are a permutation of all obstacles advanced by one speed
step — every element of the collection is processed exactly once. -/
theorem sweepAux_perm (off : Jumper) (obs : List Entity) :
    ((sweepAux off obs).kept ++ (sweepAux off obs).hits ++ (sweepAux off obs).pruned).Perm
      (obs.map moveObs) := by
  induction obs with
  | nil => simp [sweepAux]
  | cons o rest ih =>
    rw [sweepAux_cons, List.map_cons]
    split
    · dsimp only
      have h1 : ((sweepAux off rest).kept ++ moveObs o :: (sweepAux off rest).hits) ++
          (sweepAux off rest).pruned =
          (sweepAux off rest).kept ++
            moveObs o :: ((sweepAux off rest).hits ++ (sweepAux off rest).pruned) := by
        simp [List.append_assoc]
      rw [h1]
      refine List.perm_middle.trans ?_
      refine List.Perm.cons _ ?_
      rw [← List.append_assoc]
      exact ih
    · split
      · dsimp only
        refine List.perm_middle.trans ?_
        exact List.Perm.cons _ ih
      · dsimp only
        rw [List.cons_append, List.cons_append]
        exact List.Perm.cons _ ih

/-- Helper: every surviving obstacle of a sweep is an input obstacle
advanced by exactly one speed step. -/
theorem sweepAux_kept_mem (off : Jumper) (obs : List Entity) :
    ∀ o ∈ (sweepAux off obs).kept, ∃ p ∈ obs, o = moveObs p := by
  induction obs with
  | nil => simp [sweepAux]
  | cons o rest ih =>
    rw [sweepAux_cons]
    split
    · dsimp only
      intro a ha
      obtain ⟨p, hp, he⟩ := ih a ha
      exact ⟨p, List.mem_cons_of_mem _ hp, he⟩
    · split
      · dsimp only
        intro a ha
        obtain ⟨p, hp, he⟩ := ih a ha
        exact ⟨p, List.mem_cons_of_mem _ hp, he⟩
      · dsimp only
        intro a ha
        rcases List.mem_cons.mp ha with ha | ha
        · exact ⟨o, List.mem_cons_self o rest, ha⟩
        · obtain ⟨p, hp, he⟩ := ih a ha
          exact ⟨p, List.mem_cons_of_mem _ hp, he⟩

/-- Claim C6: starting grounded with a zero jump counter while
`PLAYING`, three consecutive `jump()` commands with no intervening
ground contact apply the velocity impulse exactly twice — each of the
first two sets `dy` to `JUMP_FORCE`, clears `grounded` and increments
`jumpCount` (to 1, then 2) — and the third is a silent no-op leaving
the state unchanged. -/
theorem c6_double_jump (s : SimState) (hp : s.status = GameState.PLAYING)
    (hg : s.officers.grounded = true) (hc : s.officers.jumpCount = 0) :
    (jump s).officers.dy = JUMP_FORCE ∧
    (jump s).officers.grounded = false ∧
    (jump s).officers.jumpCount = 1 ∧
    (jump (jump s)).officers.dy = JUMP_FORCE ∧
    (jump (jump s)).officers.grounded = false ∧
    (jump (jump s)).officers.jumpCount = 2 ∧
    jump (jump (jump s)) = jump (jump s) := by
  have h1 : jump s = { s with officers := { s.officers with
      dy := JUMP_FORCE
      grounded := false
      jumpCount := s.officers.jumpCount + 1 } } := by
    unfold jump
    rw [if_pos hp, if_pos (Or.inl hg)]
  have h2 : jump (jump s) = { s with officers := { s.officers with
      dy := JUMP_FORCE
      grounded := false
      jumpCount := s.officers.jumpCount + 2 } } := by
    rw [h1]
    unfold jump
    rw [if_pos hp, if_pos (Or.inr (by simp [hc]))]
  have h3 : jump (jump (jump s)) = jump (jump s) := by
    rw [h2]
    conv => lhs; unfold jump
    rw [if_pos hp, if_neg (by simp [hc])]
  refine ⟨by rw [h1], by rw [h1], ?_, by rw [h2], by rw [h2], ?_, h3⟩
  · rw [h1]
    show s.officers.jumpCount + 1 = 1
    rw [hc]
  · rw [h2]
    show s.officers.jumpCount + 2 = 2
    rw [hc]

/-- Claim C6 witness: the scenario evaluated at the concrete playing
state `sPlaying`. -/
theorem c6_double_jump_witness :
    (jump sPlaying).officers.dy = JUMP_FORCE ∧
    (jump sPlaying).officers.grounded = false ∧
    (jump sPlaying).officers.jumpCount = 1 ∧
    (jump (jump sPlaying)).officers.dy = JUMP_FORCE ∧
    (jump (jump sPlaying)).officers.grounded = false ∧
    (jump (jump sPlaying)).officers.jumpCount = 2 ∧
    jump (jump (jump sPlaying)) = jump (jump sPlaying) :=
  c6_double_jump sPlaying rfl rfl rfl

/-- Claim C8: a jumper resting exactly on the ground line with zero
vertical velocity and `grounded = true` is returned by one physics
integration step (gravity, then velocity, then ground clamp) to exactly
the same position, zero velocity and `grounded = true`; repeated steps
are a steady state.  (`rc` selects the officers' variant, which also
zeroes the jump counter on ground contact.) -/
theorem c8_ground_steady (g : ℚ) (rc : Bool) (j : Jumper)
    (hy : j.y + j.height = g) (hdy : j.dy = 0) (hg : j.grounded = true) :
    physStep g rc j = { j with jumpCount := if rc = true then 0 else j.jumpCount } ∧
    physStep g rc (physStep g rc j) = physStep g rc j := by
  have key := physStep_ground_fix g rc j hy hdy hg
  refine ⟨key, ?_⟩
  rw [key]
  have key2 := physStep_ground_fix g rc
      { j with jumpCount := if rc = true then 0 else j.jumpCount } hy hdy hg
  rw [key2]
  cases rc <;> simp

/-- Claim C8 witness: the officers' jumper resting on the ground line of
a 400-unit-tall canvas is a fixed point of the physics step. -/
theorem c8_ground_steady_witness :
    physStep 350 true offGrounded =
      { offGrounded with jumpCount := if true = true then 0 else offGrounded.jumpCount } ∧
    physStep 350 true (physStep 350 true offGrounded) = physStep 350 true offGrounded :=
  c8_ground_steady 350 true offGrounded (by norm_num [offGrounded]) rfl rfl

/-- Claim C9: in every state other than `PLAYING`, `jump()` returns the
entire simulation state unchanged (and, being a total function, raises
no error) — the command is silently ignored. -/
theorem c9_jump_ignored (s : SimState) (h : s.status ≠ GameState.PLAYING) :
    jump s = s := by
  unfold jump
  rw [if_neg h]

/-- Claim C9 witness: `jump` is the identity on the concrete `START`
state. -/
theorem c9_jump_ignored_witness : jump sStart = sStart :=
  c9_jump_ignored sStart (by simp [sStart])

/-- Claim C1 (amended): from any idle or terminal state (`START`, `WON`,
`LOST`), `startGame` transitions to `PLAYING`, restores both jumpers to
their canonical start positions (`x = 50` for the officers, `x = 0.8·w`
for the thief, both resting on the ground line) with zero vertical
velocity, `grounded = true` and zero jump counters (the thief's counter
is merely left at its prior value, which is zero in every reachable
state since nothing in the program ever writes it), and clears the
obstacle collection — but it does NOT reset the spawn timer: the
accumulated `spawnTimerRef` value carries over into the new match. -/
theorem c1_startGame_amended (w h : ℚ) (s : SimState)
    (hs : s.status = GameState.START ∨ s.status = GameState.WON ∨
          s.status = GameState.LOST)
    (htc : s.thief.jumpCount = 0) :
    (startGame w h s).status = GameState.PLAYING ∧
    (startGame w h s).officers = ⟨50, (h - GROUND_HEIGHT) - s.officers.height,
      s.officers.width, s.officers.height, 0, true, 0⟩ ∧
    (startGame w h s).thief = ⟨w * (4/5), (h - GROUND_HEIGHT) - s.thief.height,
      s.thief.width, s.thief.height, 0, true, 0⟩ ∧
    (startGame w h s).obstacles = [] ∧
    (startGame w h s).spawnTimer = s.spawnTimer := by
  refine ⟨rfl, rfl, ?_, rfl, rfl⟩
  rw [← htc]
  exact rfl

/-- Claim C1 witness: `startGame` on the concrete finished-match state
`sWon` (officers mid-air at x = 200, one pending obstacle, spawn timer
at 333) on a 800×400 canvas. -/
theorem c1_startGame_witness :
    (startGame 800 400 sWon).status = GameState.PLAYING ∧
    (startGame 800 400 sWon).officers = ⟨50, 290, 60, 60, 0, true, 0⟩ ∧
    (startGame 800 400 sWon).thief = ⟨640, 290, 40, 60, 0, true, 0⟩ ∧
    (startGame 800 400 sWon).obstacles = [] ∧
    (startGame 800 400 sWon).spawnTimer = 333 := by
  have hh := c1_startGame_amended 800 400 sWon (Or.inr (Or.inl rfl)) rfl
  refine ⟨hh.1, ?_, ?_, hh.2.2.2.1, hh.2.2.2.2⟩
  · rw [hh.2.1]
    norm_num [sWon, GROUND_HEIGHT]
  · rw [hh.2.2.1]
    norm_num [sWon, thiefGrounded, GROUND_HEIGHT]

/-- Claim C1 counterexample: the claim as stated requires the spawn
timer to be reset; on the concrete terminal state `sWon`, whose spawn
timer holds 333, `startGame` leaves it at 333 ≠ 0. -/
theorem c1_startGame_counterexample :
    sWon.status = GameState.WON ∧ sWon.spawnTimer = 333 ∧
    (startGame 800 400 sWon).spawnTimer = 333 ∧ (333 : ℚ) ≠ 0 :=
  ⟨rfl, rfl, rfl, by norm_num⟩

/-- Claim C4 (amended): every step, if some obstacle lies strictly ahead
of the evader within the 150-unit look-ahead and the evader is grounded,
the AI sets the evader's vertical velocity to the fixed upward impulse
and clears `grounded` — but, unlike the player jump command, it does NOT
increment the jump counter, which the AI leaves unchanged in all cases;
if no such obstacle exists or the evader is airborne, the evader is not
altered by the AI at all. -/
theorem c4_ai_jump_amended (th : Jumper) (obs : List Entity) :
    (upcomingObs th obs → th.grounded = true →
      aiStep th obs = { th with dy := JUMP_FORCE, grounded := false }) ∧
    (¬ upcomingObs th obs ∨ th.grounded = false → aiStep th obs = th) ∧
    (aiStep th obs).jumpCount = th.jumpCount := by
  refine ⟨?_, ?_, ?_⟩
  · intro h1 h2
    unfold aiStep
    rw [if_pos ⟨h1, h2⟩]
  · intro h
    unfold aiStep
    rw [if_neg]
    rintro ⟨ha, hb⟩
    rcases h with h | h
    · exact h ha
    · rw [h] at hb
      cases hb
  · unfold aiStep
    split
    · rfl
    · rfl

/-- Claim C4 witness: the grounded thief with one obstacle 60 units
ahead jumps — `dy` is set to the impulse and `grounded` cleared. -/
theorem c4_ai_jump_witness :
    aiStep thiefGrounded [⟨700, 310, 30, 40⟩] =
      { thiefGrounded with dy := JUMP_FORCE, grounded := false } :=
  (c4_ai_jump_amended thiefGrounded [⟨700, 310, 30, 40⟩]).1
    ⟨⟨700, 310, 30, 40⟩, by simp, by norm_num [thiefGrounded], by norm_num [thiefGrounded]⟩
    rfl

/-- Claim C4 counterexample: the claim as stated requires the AI jump to
increment the jump counter like the player jump command; on the concrete
grounded thief with an obstacle in look-ahead range, the AI jump fires
(`dy` becomes the impulse) yet the jump counter stays 0 instead of
becoming 1. -/
theorem c4_ai_jump_counterexample :
    thiefGrounded.grounded = true ∧ thiefGrounded.jumpCount = 0 ∧
    upcomingObs thiefGrounded [⟨700, 310, 30, 40⟩] ∧
    (aiStep thiefGrounded [⟨700, 310, 30, 40⟩]).dy = JUMP_FORCE ∧
    (aiStep thiefGrounded [⟨700, 310, 30, 40⟩]).jumpCount = 0 ∧
    ¬ ((aiStep thiefGrounded [⟨700, 310, 30, 40⟩]).jumpCount =
         thiefGrounded.jumpCount + 1) := by
  refine ⟨rfl, rfl, ?_, ?_, ?_, ?_⟩
  · exact ⟨⟨700, 310, 30, 40⟩, by simp, by norm_num [thiefGrounded],
      by norm_num [thiefGrounded]⟩
  · norm_num [aiStep, upcomingObs, thiefGrounded, JUMP_FORCE]
  · norm_num [aiStep, upcomingObs, thiefGrounded]
  · norm_num [aiStep, upcomingObs, thiefGrounded]

/-- Claim C5: in a `PLAYING` frame (with the evader on-screen,
`0 ≤ thief.x`, as everywhere in this game), if after the officers'
physics and catch-up advance the win condition (right edge ≥ evader x)
holds, the frame transitions to `WON`; if the loss condition
(right edge < 0) holds, it transitions to `LOST`; in both cases the
evader, the obstacle collection, the spawn accumulator and the published
distance are left unchanged in that frame, and every subsequent frame in
a terminal state mutates nothing. -/
theorem c5_terminal_shortcircuit (w h delta r1 r2 : ℚ) (s : SimState)
    (hp : s.status = GameState.PLAYING) (hth : 0 ≤ s.thief.x) :
    ((officersAfterAdvance (h - GROUND_HEIGHT) s.officers).x +
        (officersAfterAdvance (h - GROUND_HEIGHT) s.officers).width ≥ s.thief.x →
      update w h delta r1 r2 s =
        { s with status := GameState.WON,
                 officers := officersAfterAdvance (h - GROUND_HEIGHT) s.officers }) ∧
    ((officersAfterAdvance (h - GROUND_HEIGHT) s.officers).x +
        (officersAfterAdvance (h - GROUND_HEIGHT) s.officers).width < 0 →
      update w h delta r1 r2 s =
        { s with status := GameState.LOST,
                 officers := officersAfterAdvance (h - GROUND_HEIGHT) s.officers }) ∧
    (∀ t : SimState, t.status = GameState.WON ∨ t.status = GameState.LOST →
      update w h delta r1 r2 t = t) := by
  refine ⟨?_, ?_, ?_⟩
  · intro hwin
    unfold update
    rw [if_pos hp]
    unfold updatePlaying
    rw [if_pos hwin]
  · intro hloss
    have hnw : ¬ ((officersAfterAdvance (h - GROUND_HEIGHT) s.officers).x +
        (officersAfterAdvance (h - GROUND_HEIGHT) s.officers).width ≥ s.thief.x) :=
      not_le.mpr (lt_of_lt_of_le hloss hth)
    unfold update
    rw [if_pos hp]
    unfold updatePlaying
    rw [if_neg hnw, if_pos hloss]
  · intro t ht
    rcases ht with ht | ht <;> simp [update, ht]

/-- Claim C5 witness: the spec's win scenario — officers at x = 940
(width 60), thief at x = 1000 — transitions to `WON` in one frame with
everything but the officers untouched. -/
theorem c5_terminal_witness :
    update 1250 400 16 0 0 sWin =
      { sWin with status := GameState.WON,
                  officers := officersAfterAdvance (400 - GROUND_HEIGHT) sWin.officers } :=
  (c5_terminal_shortcircuit 1250 400 16 0 0 sWin rfl (by norm_num [sWin])).1
    (by norm_num [officersAfterAdvance, physStep, sWin, GRAVITY, CATCH_SPEED, GROUND_HEIGHT])

/-- Claim C2 (amended): for rectangles wider and taller than 10 units
(as every officers/obstacle rectangle in the game is), a raw overlap
below the 5-unit margin on some axis registers no collision, and a
collision is registered exactly when the raw overlap strictly exceeds
10 units — the margin shrinks BOTH rectangles by 5, so the threshold is
two margins, not one — on both axes; a collision in the sweep pushes the
officers back by exactly one 100-unit stumble penalty and records
exactly one hit. -/
theorem c2_collision_margin_amended (off : Jumper) (o : Entity)
    (how : 10 < off.width) (hoh : 10 < off.height)
    (hbw : 10 < o.width) (hbh : 10 < o.height) :
    ((overlapX off o < 5 ∨ overlapY off o < 5) → ¬ collide off o) ∧
    (10 < overlapX off o → 10 < overlapY off o → collide off o) ∧
    (collide off o → 10 < overlapX off o ∧ 10 < overlapY off o) ∧
    (∀ p : Entity, collide off (moveObs p) →
      sweepAux off [p] =
        ⟨{ off with x := off.x - STUMBLE_PENALTY }, [], [moveObs p], []⟩) := by
  have key : collide off o → 10 < overlapX off o ∧ 10 < overlapY off o := by
    rintro ⟨h1, h2, h3, h4⟩
    unfold hitMargin at h1 h2 h3 h4
    unfold overlapX overlapY
    constructor
    · rw [min_def, max_def]
      split_ifs <;> linarith
    · rw [min_def, max_def]
      split_ifs <;> linarith
  have dir : 10 < overlapX off o → 10 < overlapY off o → collide off o := by
    intro hx hy
    unfold overlapX at hx
    unfold overlapY at hy
    have l1 := min_le_left (off.x + off.width) (o.x + o.width)
    have l2 := min_le_right (off.x + off.width) (o.x + o.width)
    have l3 := le_max_left off.x o.x
    have l4 := le_max_right off.x o.x
    have m1 := min_le_left (off.y + off.height) (o.y + o.height)
    have m2 := min_le_right (off.y + off.height) (o.y + o.height)
    have m3 := le_max_left off.y o.y
    have m4 := le_max_right off.y o.y
    unfold collide hitMargin
    refine ⟨by linarith, by linarith, by linarith, by linarith⟩
  refine ⟨?_, dir, key, ?_⟩
  · intro h hc
    rcases key hc with ⟨kx, ky⟩
    rcases h with h | h <;> linarith
  · intro p hp
    rw [show [p] = p :: ([] : List Entity) from rfl, sweepAux_cons, sweepAux_nil]
    dsimp only
    rw [if_pos hp]

/-- Claim C2 witness: officers 60×60 at the ground line and an obstacle
30×50 overlapping them by 30 units horizontally and 50 vertically do
collide. -/
theorem c2_collision_margin_witness :
    collide ⟨0, 290, 60, 60, 0, true, 0⟩ ⟨30, 300, 30, 50⟩ :=
  (c2_collision_margin_amended ⟨0, 290, 60, 60, 0, true, 0⟩ ⟨30, 300, 30, 50⟩
      (by norm_num) (by norm_num) (by norm_num) (by norm_num)).2.1
    (by norm_num [overlapX]) (by norm_num [overlapY])

/-- Claim C2 counterexample: the claim as stated says raw overlap of at
least 5 units on all axes must register a collision; these concrete
rectangles (officers 60×60, obstacle 30×60) overlap by exactly 5 units
on both axes, yet the test registers no collision, the sweep records no
hit, and the officers are not pushed back. -/
theorem c2_collision_margin_counterexample :
    overlapX ⟨0, 290, 60, 60, 0, true, 0⟩ ⟨55, 345, 30, 60⟩ = 5 ∧
    overlapY ⟨0, 290, 60, 60, 0, true, 0⟩ ⟨55, 345, 30, 60⟩ = 5 ∧
    ¬ collide ⟨0, 290, 60, 60, 0, true, 0⟩ ⟨55, 345, 30, 60⟩ ∧
    (sweepAux ⟨0, 290, 60, 60, 0, true, 0⟩ [⟨61, 345, 30, 60⟩]).hits = [] ∧
    (sweepAux ⟨0, 290, 60, 60, 0, true, 0⟩ [⟨61, 345, 30, 60⟩]).officers.x = 0 := by
  refine ⟨by norm_num [overlapX], by norm_num [overlapY],
    by norm_num [collide, hitMargin], ?_, ?_⟩ <;>
  norm_num [sweepAux, moveObs, collide, hitMargin, OBSTACLE_SPEED]

/-- Claim C7: in one sweep step, the officers' position changes by
exactly one 100-unit stumble penalty per recorded hit (so each obstacle
inflicts at most one penalty, in the step where its overlap test first
succeeds); the survivors, the hit obstacles and the pruned obstacles
together are a permutation of the whole advanced input collection, so
the reverse-index in-place removal skips no obstacle and processes none
twice; and the game's collection after the sweep consists of the
survivors only — a hit obstacle is removed in that same step and can
never be tested or struck again. -/
theorem c7_single_hit (off : Jumper) (obs : List Entity) :
    (sweepAux off obs).officers =
      { off with x := off.x - STUMBLE_PENALTY * ((sweepAux off obs).hits.length : ℚ) } ∧
    ((sweepAux off obs).kept ++ (sweepAux off obs).hits ++ (sweepAux off obs).pruned).Perm
      (obs.map moveObs) ∧
    sweep off obs = ((sweepAux off obs).officers, (sweepAux off obs).kept) :=
  ⟨sweepAux_officers off obs, sweepAux_perm off obs, rfl⟩

/-- Helper: a spawner step below the trigger threshold only accumulates
the clamped delta. -/
theorem spawnStep_no_trigger (w g r1 r2 delta st nst : ℚ) (obs : List Entity)
    (h : ¬ st + min delta 50 > nst) :
    spawnStep w g r1 r2 delta st nst obs = ⟨st + min delta 50, nst, obs⟩ := by
  unfold spawnStep
  rw [if_neg h]

/-- Helper: `n` trigger-free 50-unit steps of the counterexample spawner
run accumulate `50 * n`. -/
theorem c3step_iterate (n : ℕ) (st nst : ℚ) (obs : List Entity)
    (h : st + 50 * n ≤ nst) :
    c3step^[n] (st, nst, obs) = (st + 50 * n, nst, obs) := by
  induction n generalizing st with
  | zero => simp
  | succ k ih =>
    have hk : (0 : ℚ) ≤ 50 * k := by positivity
    have hstep : c3step (st, nst, obs) = (st + 50, nst, obs) := by
      unfold c3step
      rw [spawnStep_no_trigger 800 350 (39/40) 0 50 st nst obs
          (by push_cast at h; simp only [min_self]; linarith)]
      simp [min_self]
    rw [Function.iterate_succ_apply, hstep,
        ih (st + 50) (by push_cast at h ⊢; linarith)]
    have harith : st + 50 + 50 * (k : ℚ) = st + 50 * ((k : ℚ) + 1) := by ring
    push_cast
    rw [harith]

/-- Claim C3 (amended): under nonneg per-step deltas clamped at 50 and
the spawner invariants (accumulator not yet past the target, target in
[1200, 2000)), at a spawn trigger the accumulator value at trigger time
lies in (target, target + 50] — hence strictly above 1200 but possibly
as large as just under 2050, NOT always below 2000; the accumulator is
then reset to zero, the newly drawn target lies in [1200, 2000), and the
appended obstacle has integer height in [40, 80], width 30, left edge at
the right edge of the field and bottom on the ground line. -/
theorem c3_spawn_amended (w g r1 r2 delta st nst : ℚ) (obs : List Entity)
    (hr1a : 0 ≤ r1) (hr1b : r1 < 1) (hr2a : 0 ≤ r2) (hr2b : r2 < 1)
    (hd : 0 ≤ delta) (hstn : st ≤ nst)
    (hnl : SPAWN_RATE_MIN ≤ nst) (hnu : nst < SPAWN_RATE_MAX)
    (htrig : st + min delta 50 > nst) :
    (SPAWN_RATE_MIN < st + min delta 50 ∧
     st + min delta 50 ≤ nst + 50 ∧
     st + min delta 50 < SPAWN_RATE_MAX + 50) ∧
    spawnStep w g r1 r2 delta st nst obs =
      ⟨0, r1 * 800 + 1200, obs ++ [newObstacle w g r2]⟩ ∧
    (SPAWN_RATE_MIN ≤ r1 * 800 + 1200 ∧ r1 * 800 + 1200 < SPAWN_RATE_MAX) ∧
    ((newObstacle w g r2).x = w ∧ (newObstacle w g r2).width = 30 ∧
     (newObstacle w g r2).y + (newObstacle w g r2).height = g ∧
     (∃ k : ℤ, (newObstacle w g r2).height = (k : ℚ) ∧ 40 ≤ k ∧ k ≤ 80)) := by
  have hmin : min delta 50 ≤ 50 := min_le_right delta 50
  have hr800 : r1 * 800 < 1 * 800 := by
    apply mul_lt_mul_of_pos_right hr1b
    norm_num
  have hr800n : 0 ≤ r1 * 800 := by positivity
  have hfl : (0 : ℤ) ≤ ⌊r2 * 41⌋ := Int.floor_nonneg.mpr (by positivity)
  have hfu : ⌊r2 * 41⌋ < 41 := Int.floor_lt.mpr (by push_cast; nlinarith)
  refine ⟨⟨?_, ?_, ?_⟩, ?_, ⟨?_, ?_⟩, rfl, rfl, by unfold newObstacle; ring, ?_⟩
  · unfold SPAWN_RATE_MIN at hnl ⊢
    linarith
  · linarith
  · unfold SPAWN_RATE_MAX at hnu ⊢
    linarith
  · unfold spawnStep
    rw [if_pos htrig]
    norm_num [SPAWN_RATE_MAX, SPAWN_RATE_MIN]
  · unfold SPAWN_RATE_MIN
    linarith
  · unfold SPAWN_RATE_MAX
    linarith
  · exact ⟨⌊r2 * 41⌋ + 40, rfl, by omega, by omega⟩

/-- Claim C3 witness: a concrete trigger — accumulator 1190 plus a
clamped delta of 50 passes the 1200 target — spawns the expected
obstacle and resets the timer. -/
theorem c3_spawn_witness :
    spawnStep 800 350 (1/2) (1/2) 60 1190 1200 [] =
      ⟨0, (1/2) * 800 + 1200, [] ++ [newObstacle 800 350 (1/2)]⟩ ∧
    (∃ k : ℤ, (newObstacle 800 350 (1/2)).height = (k : ℚ) ∧ 40 ≤ k ∧ k ≤ 80) := by
  have hh := c3_spawn_amended 800 350 (1/2) (1/2) 60 1190 1200 []
    (by norm_num) (by norm_num) (by norm_num) (by norm_num) (by norm_num)
    (by norm_num) (by norm_num [SPAWN_RATE_MIN]) (by norm_num [SPAWN_RATE_MAX])
    (by norm_num [min_def])
  exact ⟨hh.2.1, hh.2.2.2.2.2.2⟩

/-- Claim C3 counterexample: the claim as stated puts every trigger-time
accumulator value in [1200, 2000).  In the concrete run `c3step` from the
initial spawner state (accumulator 0, target 1500) with every frame
delta 50: after 70 steps the accumulator reads 1950 against a drawn
target of 1980 (drawn at the first spawn, step 31), step 71 triggers
with the accumulator at 1950 + 50 = 2000, and 2000 is not below 2000. -/
theorem c3_spawn_counterexample :
    c3step^[70] (0, 1500, []) = (1950, 1980, [newObstacle 800 350 0]) ∧
    (1950 : ℚ) + min 50 50 > 1980 ∧
    ¬ ((1950 : ℚ) + min 50 50 < SPAWN_RATE_MAX) ∧
    (c3step^[71] (0, 1500, [])).1 = 0 := by
  have h30 : c3step^[30] ((0 : ℚ), (1500 : ℚ), ([] : List Entity)) = (1500, 1500, []) := by
    have hh := c3step_iterate 30 0 1500 [] (by norm_num)
    rw [hh]
    norm_num
  have h31 : c3step^[31] ((0 : ℚ), (1500 : ℚ), ([] : List Entity)) =
      (0, 1980, [newObstacle 800 350 0]) := by
    rw [Function.iterate_succ_apply', h30]
    unfold c3step spawnStep
    rw [if_pos (by norm_num)]
    norm_num [SPAWN_RATE_MAX, SPAWN_RATE_MIN]
  have h70 : c3step^[70] ((0 : ℚ), (1500 : ℚ), ([] : List Entity)) =
      (1950, 1980, [newObstacle 800 350 0]) := by
    rw [show (70 : ℕ) = 39 + 31 from rfl, Function.iterate_add_apply, h31]
    have hh := c3step_iterate 39 0 1980 [newObstacle 800 350 0] (by norm_num)
    rw [hh]
    norm_num
  refine ⟨h70, by norm_num, by norm_num [SPAWN_RATE_MAX], ?_⟩
  rw [Function.iterate_succ_apply', h70]
  unfold c3step spawnStep
  rw [if_pos (by norm_num)]

/-- Claim C10: in a `PLAYING` frame that does not short-circuit on the
win or loss check, every obstacle present after the frame is an obstacle
of the post-spawn collection moved left by exactly `OBSTACLE_SPEED = 6`
units, whatever the frame delta is; and the delta influences the
obstacle collection only through the spawn trigger — two deltas on whose
trigger condition the spawner agrees yield identical obstacle
collections. -/
theorem c10_obstacle_speed (w h delta r1 r2 : ℚ) (s : SimState)
    (hp : s.status = GameState.PLAYING)
    (hwin : ¬ ((officersAfterAdvance (h - GROUND_HEIGHT) s.officers).x +
               (officersAfterAdvance (h - GROUND_HEIGHT) s.officers).width ≥ s.thief.x))
    (hloss : ¬ ((officersAfterAdvance (h - GROUND_HEIGHT) s.officers).x +
                (officersAfterAdvance (h - GROUND_HEIGHT) s.officers).width < 0)) :
    OBSTACLE_SPEED = 6 ∧
    (∀ o ∈ (update w h delta r1 r2 s).obstacles,
       ∃ p ∈ (spawnStep w (h - GROUND_HEIGHT) r1 r2 delta s.spawnTimer
                s.nextSpawnTime s.obstacles).obstacles,
         o = { p with x := p.x - OBSTACLE_SPEED }) ∧
    (∀ d1 d2 : ℚ,
       ((s.spawnTimer + min d1 50 > s.nextSpawnTime) ↔
        (s.spawnTimer + min d2 50 > s.nextSpawnTime)) →
       (update w h d1 r1 r2 s).obstacles = (update w h d2 r1 r2 s).obstacles) := by
  have hpost : ∀ d : ℚ, update w h d r1 r2 s = postCheckStep w h d r1 r2 s := by
    intro d
    unfold update
    rw [if_pos hp]
    unfold updatePlaying
    rw [if_neg hwin, if_neg hloss]
  have hobs : ∀ d : ℚ, (update w h d r1 r2 s).obstacles =
      (sweepAux (officersAfterAdvance (h - GROUND_HEIGHT) s.officers)
        (spawnStep w (h - GROUND_HEIGHT) r1 r2 d s.spawnTimer
          s.nextSpawnTime s.obstacles).obstacles).kept := by
    intro d
    rw [hpost d]
    rfl
  refine ⟨rfl, ?_, ?_⟩
  · intro o ho
    rw [hobs delta] at ho
    obtain ⟨p, hpmem, he⟩ := sweepAux_kept_mem _ _ o ho
    exact ⟨p, hpmem, by rw [he]; rfl⟩
  · intro d1 d2 hiff
    rw [hobs d1, hobs d2]
    have hsp : (spawnStep w (h - GROUND_HEIGHT) r1 r2 d1 s.spawnTimer
          s.nextSpawnTime s.obstacles).obstacles =
        (spawnStep w (h - GROUND_HEIGHT) r1 r2 d2 s.spawnTimer
          s.nextSpawnTime s.obstacles).obstacles := by
      unfold spawnStep
      by_cases hb : s.spawnTimer + min d1 50 > s.nextSpawnTime
      · rw [if_pos hb, if_pos (hiff.mp hb)]
      · rw [if_neg hb, if_neg (fun hb2 => hb (hiff.mpr hb2))]
    rw [hsp]

/-- Claim C10 witness: on the concrete playing state, a frame with delta
50 and a frame with delta 10 (neither triggering a spawn) leave
identical obstacle collections. -/
theorem c10_obstacle_speed_witness :
    (update 800 400 50 0 0 sPlaying).obstacles =
      (update 800 400 10 0 0 sPlaying).obstacles :=
  (c10_obstacle_speed 800 400 50 0 0 sPlaying rfl
      (by norm_num [officersAfterAdvance, physStep, sPlaying, offGrounded,
        thiefGrounded, GRAVITY, CATCH_SPEED, GROUND_HEIGHT])
      (by norm_num [officersAfterAdvance, physStep, sPlaying, offGrounded,
        GRAVITY, CATCH_SPEED, GROUND_HEIGHT])).2.2 50 10
    (by norm_num [sPlaying, min_def])

end Runner
